import Mathlib

/-!
Shallow embedding of the browser-orchestrator worker-pool lifecycle manager.

The repository has two variants of the same design:
* `src/orchestrator/src/api.rs` (namespace `Api`): list-based `Pool`
  (`session_list`, `worker_list`), durable state under the `pool_state` key.
* `src/orchestrator/src/back.rs` (namespace `Back`): set-based `WorkerPool`
  (`sessions`, `workers`), durable state under the `pool` key.

Modelling conventions:
* Durable state (`ctx.get`/`ctx.set`) is the deserialized value, an
  `Option Pool` / `Option WorkerPool` (`None` = no persisted record yet);
  serde serialization is treated as a faithful round trip.
* External effects are oracles passed as parameters: `binds p` is whether the
  probe `TcpListener::bind(("0.0.0.0", p))` succeeds, `spawnOk` is whether
  `Command::new("steel-browser").spawn()` succeeds, HTTP calls to a worker are
  functions from the port (and session id) to `Option String` (`none` =
  transport failure, `some body` = raw response body), and JSON parsing of the
  session-create response is a function `String → Option CreateSessionResponse`.
* Each handler returns the new persisted state together with its result; the
  spawn handlers additionally record whether the worker process was started.
* Rust `HashSet` collections in `back.rs` are modelled as lists whose order
  stands for the set's iteration order; `insert`/`remove`/`retain` are
  modelled by guarded cons, filtering out the element, and `List.filter`.
-/

namespace Api

/-- Session record of api.rs: `id`, `available`, `worker_id`, `user`. -/
structure Session where
  id : String
  available : Bool
  worker_id : String
  user : String
deriving DecidableEq

/-- Worker record of api.rs: `id`, `port : Option<u16>`, `available`. -/
structure Worker where
  id : String
  port : Option Nat
  available : Bool
deriving DecidableEq

/-- Pool record of api.rs: `session_list: Vec<Session>`, `worker_list: Vec<Worker>`. -/
structure Pool where
  session_list : List Session
  worker_list : List Worker
deriving DecidableEq

instance : Inhabited Pool := ⟨⟨[], []⟩⟩

/-- `Data` payload of api.rs (the `user` field echoed by the worker). -/
structure Data where
  user : String
deriving DecidableEq

/-- Parsed body of the worker's session-create response (api.rs
`CreateSessionResponse`): `id`, `created_at`, `data`. -/
structure CreateSessionResponse where
  id : String
  created_at : Int
  data : Data
deriving DecidableEq

/-- Errors surfaced by the api.rs handlers; every failure point of the
modelled code raises a restate `TerminalError` with a message. -/
inductive HErr where
  | terminal : String → HErr
deriving DecidableEq

end Api

/-- One step of the port scan loop `for p in min_port..max_port` shared by the
two `get_port` functions: probe `p`, return it if the bind succeeds, otherwise
continue with `p+1`; `fuel` is the number of candidates left in the range. -/
def portScan (binds : Nat → Bool) : Nat → Nat → Option Nat
  | _, 0 => none
  | p, fuel + 1 => if binds p then some p else portScan binds (p + 1) fuel

/-- api.rs `get_port`: scan ports `3000..u16::MAX` (upper bound exclusive)
and return the first one whose bind probe succeeds. -/
def Api.get_port (binds : Nat → Bool) : Option Nat :=
  portScan binds 3000 (65535 - 3000)

/-- back.rs `get_port`: identical scan over `1024..u16::MAX`. -/
def Back.get_port (binds : Nat → Bool) : Option Nat :=
  portScan binds 1024 (65535 - 1024)

namespace Api

/-- Outcome of an api.rs `spawn_worker` invocation: the persisted state after
the call, the handler result, and whether the `steel-browser` process was
started (i.e. `Command::spawn` ran and succeeded). -/
structure SpawnOutcome where
  newState : Option Pool
  result : Except HErr String
  processSpawned : Bool

/-- api.rs `spawn_worker` (lines 180-249). Steps, in source order: call
`get_port()`; run `Command::new("steel-browser")` with env
`PORT = ready_port.unwrap_or_default()` (note: this runs whether or not a
port was found); sleep; draw `worker_id` (`uuid` oracle); build the Worker;
read `pool_state`; insert the Worker at index 0; require `worker.port`
(terminal error if `None`); POST the session-create request (`createSession`
oracle, by port); parse the body (`parseResponse` oracle); build the Session;
insert it at index 0; `ctx.set("pool_state", ...)`; return the raw body plus
the worker port. Only the final step writes state. -/
def spawn_worker (binds : Nat → Bool) (spawnOk : Bool) (uuid : String)
    (createSession : Nat → Option String)
    (parseResponse : String → Option CreateSessionResponse)
    (state : Option Pool) : SpawnOutcome :=
  let ready_port := get_port binds
  if spawnOk then
    let worker : Worker := { id := uuid, port := ready_port, available := true }
    let pool := state.getD default
    let pool := { pool with worker_list := worker :: pool.worker_list }
    match ready_port with
    | none =>
      { newState := state, result := .error (.terminal "Error fetching worker port"),
        processSpawned := true }
    | some worker_port =>
      match createSession worker_port with
      | none =>
        { newState := state, result := .error (.terminal "Failed to create session"),
          processSpawned := true }
      | some body =>
        match parseResponse body with
        | none =>
          { newState := state, result := .error (.terminal "Invalid JSON response"),
            processSpawned := true }
        | some parsed =>
          let session : Session :=
            { id := parsed.id, available := true, worker_id := uuid, user := parsed.data.user }
          let pool := { pool with session_list := session :: pool.session_list }
          { newState := some pool,
            result := .ok (body ++ "\nworker_port:" ++ toString worker_port),
            processSpawned := true }
  else
    { newState := state, result := .error (.terminal "Error starting steel-browser"),
      processSpawned := false }

/-- api.rs `health_check` (lines 78-128): read `pool_state`, look up the
Session by id, resolve its Worker, require the worker's port, then GET
`/health` on the worker (`healthReq` oracle, by port). Never writes state. -/
def health_check (healthReq : Nat → Option String) (state : Option Pool)
    (session_id : String) : Option Pool × Except HErr String :=
  let pool := state.getD default
  match pool.session_list.find? (fun s => s.id == session_id) with
  | none => (state, .error (.terminal "Error fetching session from session_list"))
  | some session =>
    match pool.worker_list.find? (fun w => w.id == session.worker_id) with
    | none => (state, .error (.terminal "Error fetching session_worker from worker_list"))
    | some worker =>
      match worker.port with
      | none => (state, .error (.terminal "Error fetching worker port"))
      | some worker_port =>
        match healthReq worker_port with
        | none => (state, .error (.terminal "Failed to send health request"))
        | some body => (state, .ok body)

/-- api.rs `status_check` (lines 129-179): same lookup chain as
`health_check`, then GET `/status` on the worker. Never writes state. -/
def status_check (statusReq : Nat → Option String) (state : Option Pool)
    (session_id : String) : Option Pool × Except HErr String :=
  let pool := state.getD default
  match pool.session_list.find? (fun s => s.id == session_id) with
  | none => (state, .error (.terminal "Error fetching session from session_list"))
  | some session =>
    match pool.worker_list.find? (fun w => w.id == session.worker_id) with
    | none => (state, .error (.terminal "Error fetching session_worker from worker_list"))
    | some worker =>
      match worker.port with
      | none => (state, .error (.terminal "Error fetching worker port"))
      | some worker_port =>
        match statusReq worker_port with
        | none => (state, .error (.terminal "Failed to send status request"))
        | some body => (state, .ok body)

/-- api.rs `get_session` (lines 250-303): same lookup chain, then GET
`/sessions/{session.id}` on the worker (`fetchReq` oracle, by port and
session id). Never writes state. -/
def get_session (fetchReq : Nat → String → Option String) (state : Option Pool)
    (session_id : String) : Option Pool × Except HErr String :=
  let pool := state.getD default
  match pool.session_list.find? (fun s => s.id == session_id) with
  | none => (state, .error (.terminal "Error fetching session from session_list"))
  | some session =>
    match pool.worker_list.find? (fun w => w.id == session.worker_id) with
    | none => (state, .error (.terminal "Error fetching session_worker from worker_list"))
    | some worker =>
      match worker.port with
      | none => (state, .error (.terminal "Error fetching worker port"))
      | some worker_port =>
        match fetchReq worker_port session.id with
        | none => (state, .error (.terminal "Failed to send health request"))
        | some body => (state, .ok body)

/-- api.rs `delete_session` (lines 304-358): same lookup chain, then DELETE
`/sessions/{session.id}` on the worker. The source comment notes it does not
manage the pool state: no entry is removed and nothing is written. -/
def delete_session (deleteReq : Nat → String → Option String) (state : Option Pool)
    (session_id : String) : Option Pool × Except HErr String :=
  let pool := state.getD default
  match pool.session_list.find? (fun s => s.id == session_id) with
  | none => (state, .error (.terminal "Error fetching session from session_list"))
  | some session =>
    match pool.worker_list.find? (fun w => w.id == session.worker_id) with
    | none => (state, .error (.terminal "Error fetching session_worker from worker_list"))
    | some worker =>
      match worker.port with
      | none => (state, .error (.terminal "Error fetching worker port"))
      | some worker_port =>
        match deleteReq worker_port session.id with
        | none => (state, .error (.terminal "Failed to send health request"))
        | some body => (state, .ok body)

/-- Pool invariant of the spec: every Session's `worker_id` resolves to
exactly one Worker present in the same Pool. -/
def Pool.inv (p : Pool) : Bool :=
  p.session_list.all
    (fun s => (p.worker_list.filter (fun w => w.id == s.worker_id)).length == 1)

end Api

namespace Back

/-- Session record of back.rs: `id`, `available`, `worker_id` (no `user`). -/
structure Session where
  id : String
  available : Bool
  worker_id : String
deriving DecidableEq

/-- Worker record of back.rs: `id`, `port : Option<u16>`, `available`. -/
structure Worker where
  id : String
  port : Option Nat
  available : Bool
deriving DecidableEq

/-- WorkerPool record of back.rs: `sessions: HashSet<Session>`,
`workers: HashSet<Worker>`, modelled as lists in iteration order. -/
structure WorkerPool where
  sessions : List Session
  workers : List Worker
deriving DecidableEq

instance : Inhabited WorkerPool := ⟨⟨[], []⟩⟩

/-- Outcome of a back.rs `spawn_worker` invocation. -/
structure SpawnOutcome where
  newState : Option WorkerPool
  result : Except String String
  processSpawned : Bool

/-- back.rs `spawn_worker` (lines 49-87): `get_port().ok_or("No available
ports")?` (so allocation failure aborts before anything else); spawn the
`steel-browser` process (abort on failure); draw a worker id; build Worker
and Session (the session id is supplied by the caller); read the pool;
`HashSet::insert` both (no-op when an equal element is already present,
otherwise modelled as cons); write the pool; return the summary string. -/
def spawn_worker (binds : Nat → Bool) (spawnOk : Bool) (uuid : String)
    (session_id : String) (state : Option WorkerPool) : SpawnOutcome :=
  match get_port binds with
  | none => { newState := state, result := .error "No available ports", processSpawned := false }
  | some ready_port =>
    if spawnOk then
      let worker : Worker := { id := uuid, port := some ready_port, available := true }
      let session : Session := { id := session_id, available := true, worker_id := uuid }
      let pool := state.getD default
      let workers := if worker ∈ pool.workers then pool.workers else worker :: pool.workers
      let sessions := if session ∈ pool.sessions then pool.sessions else session :: pool.sessions
      { newState := some { sessions := sessions, workers := workers },
        result := .ok ("Worker " ++ uuid ++ " spawned on port " ++ toString ready_port),
        processSpawned := true }
    else
      { newState := state, result := .error "Failed to create browser session",
        processSpawned := false }

/-- back.rs `delete_session` (lines 98-109): read the pool; if a Session with
the given id exists, `remove` it from `sessions`, `retain` only the workers
whose `id` differs from the session's `worker_id` (an unconditional eviction
of that worker id), and write the pool; otherwise do nothing. Always returns
`Ok(())`. -/
def delete_session (state : Option WorkerPool) (session_id : String) :
    Option WorkerPool × Except String Unit :=
  let pool := state.getD default
  match pool.sessions.find? (fun s => s.id == session_id) with
  | some session =>
    (some { sessions := pool.sessions.filter (fun s => decide (s ≠ session)),
            workers := pool.workers.filter (fun w => w.id != session.worker_id) },
     .ok ())
  | none => (state, .ok ())

/-- Pool invariant of the spec, for the back.rs schema. -/
def WorkerPool.inv (p : WorkerPool) : Bool :=
  p.sessions.all
    (fun s => (p.workers.filter (fun w => w.id == s.worker_id)).length == 1)

end Back

theorem portScan_eq_some {binds : Nat → Bool} {p fuel q : Nat}
    (h : portScan binds p fuel = some q) :
    binds q = true ∧ p ≤ q ∧ q < p + fuel ∧
      ∀ r, p ≤ r → r < q → binds r = false := by
  induction fuel generalizing p with
  | zero => simp [portScan] at h
  | succ n ih =>
    rw [portScan] at h
    by_cases hb : binds p = true
    · rw [if_pos hb] at h
      obtain rfl : p = q := by injection h
      exact ⟨hb, le_refl _, by omega, fun r h1 h2 => absurd h1 (by omega)⟩
    · rw [if_neg hb] at h
      obtain ⟨hq, h1, h2, h3⟩ := ih h
      refine ⟨hq, by omega, by omega, fun r hr1 hr2 => ?_⟩
      rcases Nat.eq_or_lt_of_le hr1 with rfl | hlt
      · exact Bool.not_eq_true _ ▸ (by simpa using hb)
      · exact h3 r hlt hr2

theorem portScan_eq_none {binds : Nat → Bool} {p fuel : Nat} :
    portScan binds p fuel = none ↔
      ∀ r, p ≤ r → r < p + fuel → binds r = false := by
  induction fuel generalizing p with
  | zero => simp [portScan]; omega
  | succ n ih =>
    rw [portScan]
    by_cases hb : binds p = true
    · simp only [if_pos hb]
      constructor
      · intro h; cases h
      · intro h
        have := h p (le_refl _) (by omega)
        rw [hb] at this; cases this
    · simp only [if_neg hb]
      rw [ih]
      constructor
      · intro h r h1 h2
        rcases Nat.eq_or_lt_of_le h1 with rfl | hlt
        · simpa using hb
        · exact h r hlt (by omega)
      · intro h r h1 h2
        exact h r (by omega) (by omega)

theorem filter_key_nil {α : Type} (key : α → String) (x : String) :
    ∀ l : List α, (∀ a ∈ l, key a ≠ x) → l.filter (fun a => key a == x) = [] := by
  intro l h
  induction l with
  | nil => rfl
  | cons a t ih =>
    have ha : (key a == x) = false := beq_eq_false_iff_ne.mpr (h a (List.mem_cons_self a t))
    rw [List.filter_cons, ha]
    simp only [Bool.false_eq_true, if_false]
    exact ih fun b hb => h b (List.mem_cons_of_mem a hb)

theorem filter_filter_ne {α : Type} (key : α → String) (x y : String) (hxy : x ≠ y) :
    ∀ l : List α,
      (l.filter (fun a => key a != y)).filter (fun a => key a == x) =
        l.filter (fun a => key a == x) := by
  intro l
  induction l with
  | nil => rfl
  | cons a t ih =>
    by_cases hx : key a = x
    · have h1 : (key a != y) = true := by simp [bne_iff_ne, hx]; exact hx ▸ hxy
      have h2 : (key a == x) = true := beq_iff_eq.mpr hx
      rw [List.filter_cons, h1, if_pos rfl, List.filter_cons, h2, if_pos rfl,
        List.filter_cons, h2, if_pos rfl, ih]
    · have h2 : (key a == x) = false := beq_eq_false_iff_ne.mpr hx
      by_cases hy : (key a != y) = true
      · rw [List.filter_cons, hy, if_pos rfl, List.filter_cons, h2]
        simp only [Bool.false_eq_true, if_false]
        rw [List.filter_cons, h2]
        simp only [Bool.false_eq_true, if_false]
        exact ih
      · have hy' : (key a != y) = false := by simpa using hy
        rw [List.filter_cons, hy']
        simp only [Bool.false_eq_true, if_false]
        rw [List.filter_cons, h2]
        simp only [Bool.false_eq_true, if_false]
        exact ih

/-- C5: `get_port` scans its range in ascending order and returns the first
port whose bind probe succeeds (every earlier candidate fails), or `none`
exactly when the whole range fails; any returned port lies in `[3000, 65535)`
for api.rs and `[1024, 65535)` for back.rs. -/
theorem c5_get_port_first_fit :
    (∀ binds p, Api.get_port binds = some p →
      binds p = true ∧ 3000 ≤ p ∧ p < 65535 ∧
        ∀ q, 3000 ≤ q → q < p → binds q = false)
    ∧ (∀ binds, Api.get_port binds = none ↔
        ∀ q, 3000 ≤ q → q < 65535 → binds q = false)
    ∧ (∀ binds p, Back.get_port binds = some p →
      binds p = true ∧ 1024 ≤ p ∧ p < 65535 ∧
        ∀ q, 1024 ≤ q → q < p → binds q = false)
    ∧ (∀ binds, Back.get_port binds = none ↔
        ∀ q, 1024 ≤ q → q < 65535 → binds q = false) := by
  refine ⟨fun binds p h => ?_, fun binds => ?_, fun binds p h => ?_, fun binds => ?_⟩
  · obtain ⟨h1, h2, h3, h4⟩ := portScan_eq_some h
    exact ⟨h1, h2, by omega, h4⟩
  · rw [Api.get_port, portScan_eq_none]
  · obtain ⟨h1, h2, h3, h4⟩ := portScan_eq_some h
    exact ⟨h1, h2, by omega, h4⟩
  · rw [Back.get_port, portScan_eq_none]

/-- Witness for C5 at concrete inputs: a probe that only accepts port 3000
makes api.rs `get_port` return 3000 (in range, bind succeeds), and a probe
that always fails makes back.rs `get_port` return `none`. -/
theorem c5_get_port_first_fit_witness :
    (fun q => q == 3000) 3000 = true ∧ 3000 ≤ 3000 ∧ 3000 < 65535 ∧
      Back.get_port (fun _ => false) = none := by
  obtain ⟨h1, h2, h3, _⟩ := c5_get_port_first_fit.1 (fun q => q == 3000) 3000 (by rfl)
  exact ⟨h1, h2, h3, (c5_get_port_first_fit.2.2.2 (fun _ => false)).mpr fun q _ _ => rfl⟩

/-- C9: the api.rs `delete_session` removes nothing from the Pool — the
persisted state after the call is exactly the state before it, for every
pool, id and worker response. -/
theorem c9_api_delete_session_removes_nothing :
    ∀ (deleteReq : Nat → String → Option String) (state : Option Api.Pool)
      (session_id : String),
      (Api.delete_session deleteReq state session_id).1 = state := by
  intro d state sid
  simp only [Api.delete_session]
  split
  · rfl
  · split
    · rfl
    · split
      · rfl
      · split
        · rfl
        · rfl

/-- C10: the api.rs `health_check`, `status_check` and `get_session` never
write the persisted pool state: on the success path and on every error path
the stored value after the call equals the value before it. -/
theorem c10_api_read_handlers_never_write :
    (∀ (healthReq : Nat → Option String) (state : Option Api.Pool) (session_id : String),
      (Api.health_check healthReq state session_id).1 = state)
    ∧ (∀ (statusReq : Nat → Option String) (state : Option Api.Pool) (session_id : String),
      (Api.status_check statusReq state session_id).1 = state)
    ∧ (∀ (fetchReq : Nat → String → Option String) (state : Option Api.Pool)
        (session_id : String),
      (Api.get_session fetchReq state session_id).1 = state) := by
  refine ⟨fun h state sid => ?_, fun h state sid => ?_, fun h state sid => ?_⟩
  · simp only [Api.health_check]
    split
    · rfl
    · split
      · rfl
      · split
        · rfl
        · split
          · rfl
          · rfl
  · simp only [Api.status_check]
    split
    · rfl
    · split
      · rfl
      · split
        · rfl
        · split
          · rfl
          · rfl
  · simp only [Api.get_session]
    split
    · rfl
    · split
      · rfl
      · split
        · rfl
        · split
          · rfl
          · rfl

/-- Counterexample to C7 as stated: the back.rs `delete_session` on an id
absent from the pool (here the lazily-created empty pool) does not return a
not-found condition — it silently succeeds with `Ok(())` and no state change. -/
theorem c7_counterexample :
    ((none : Option Back.WorkerPool).getD default).sessions.find?
        (fun s => s.id == "x") = none ∧
      Back.delete_session none "x" = (none, .ok ()) :=
  ⟨rfl, rfl⟩

/-- C7 amended: on a session id absent from the pool, the api.rs
`delete_session` returns the not-found terminal error and leaves state
unchanged, while the back.rs variant returns success with no state change. -/
theorem c7_amended_delete_session_unknown_id :
    (∀ (deleteReq : Nat → String → Option String) (state : Option Api.Pool)
        (session_id : String),
      (state.getD default).session_list.find? (fun s => s.id == session_id) = none →
      Api.delete_session deleteReq state session_id =
        (state, .error (.terminal "Error fetching session from session_list")))
    ∧ (∀ (state : Option Back.WorkerPool) (session_id : String),
      (state.getD default).sessions.find? (fun s => s.id == session_id) = none →
      Back.delete_session state session_id = (state, .ok ())) := by
  constructor
  · intro d state sid h
    simp only [Api.delete_session]
    rw [h]
  · intro state sid h
    simp only [Back.delete_session]
    rw [h]

/-- Witness for C7 amended, at concrete inputs: deleting the unknown id "x"
from a one-session api.rs pool errors with the not-found message, and
deleting the unknown id "y" from an empty back.rs pool returns `Ok(())`. -/
theorem c7_amended_delete_session_unknown_id_witness :
    Api.delete_session (fun _ _ => none)
        (some ⟨[⟨"s1", true, "w1", "alice"⟩], [⟨"w1", some 3000, true⟩]⟩) "x" =
      (some ⟨[⟨"s1", true, "w1", "alice"⟩], [⟨"w1", some 3000, true⟩]⟩,
        .error (.terminal "Error fetching session from session_list")) ∧
    Back.delete_session none "y" = (none, .ok ()) :=
  ⟨c7_amended_delete_session_unknown_id.1 (fun _ _ => none)
      (some ⟨[⟨"s1", true, "w1", "alice"⟩], [⟨"w1", some 3000, true⟩]⟩) "x" rfl,
    c7_amended_delete_session_unknown_id.2 none "y" rfl⟩

/-- Counterexample to C6 as stated: in the back.rs pool with sessions `s1`
and `s2` both referencing worker `w1`, deleting `s1` evicts `w1` even though
`s2` still references it — the worker is not kept in the pool. -/
theorem c6_counterexample :
    Back.delete_session
        (some ⟨[⟨"s1", true, "w1"⟩, ⟨"s2", true, "w1"⟩], [⟨"w1", some 4000, true⟩]⟩)
        "s1" =
      (some ⟨[⟨"s2", true, "w1"⟩], []⟩, .ok ()) := by
  rfl

/-- C6 amended: on a known session id the back.rs `delete_session` removes
that Session and unconditionally evicts every Worker whose id equals the
session's `worker_id`, whether or not another Session still references it;
no worker with that id survives in the written pool. -/
theorem c6_amended_back_delete_evicts_unconditionally :
    ∀ (state : Option Back.WorkerPool) (session_id : String) (sess : Back.Session),
      (state.getD default).sessions.find? (fun s => s.id == session_id) = some sess →
      Back.delete_session state session_id =
        (some { sessions := (state.getD default).sessions.filter (fun s => decide (s ≠ sess)),
                workers := (state.getD default).workers.filter
                  (fun w => w.id != sess.worker_id) },
          .ok ()) ∧
      ∀ p', (Back.delete_session state session_id).1 = some p' →
        ∀ w ∈ p'.workers, w.id ≠ sess.worker_id := by
  intro state sid sess h
  have h1 : Back.delete_session state sid =
      (some { sessions := (state.getD default).sessions.filter (fun s => decide (s ≠ sess)),
              workers := (state.getD default).workers.filter
                (fun w => w.id != sess.worker_id) },
        .ok ()) := by
    simp only [Back.delete_session]
    rw [h]
  refine ⟨h1, fun p' hp' w hw => ?_⟩
  rw [h1] at hp'
  obtain rfl : _ = p' := Option.some.inj hp'
  simp only [List.mem_filter, bne_iff_ne] at hw
  exact hw.2

/-- Witness for C6 amended at a concrete input: deleting the only session of
a one-session back.rs pool removes the session and evicts its worker. -/
theorem c6_amended_back_delete_evicts_unconditionally_witness :
    Back.delete_session (some ⟨[⟨"s1", true, "w1"⟩], [⟨"w1", some 4000, true⟩]⟩) "s1" =
      (some ⟨[], []⟩, .ok ()) := by
  have h := (c6_amended_back_delete_evicts_unconditionally
    (some ⟨[⟨"s1", true, "w1"⟩], [⟨"w1", some 4000, true⟩]⟩) "s1" ⟨"s1", true, "w1"⟩ rfl).1
  exact h.trans (by rfl)

theorem spawn_worker_spawn_fail {binds : Nat → Bool} {uuid : String}
    {createSession : Nat → Option String}
    {parseResponse : String → Option Api.CreateSessionResponse} {state : Option Api.Pool} :
    Api.spawn_worker binds false uuid createSession parseResponse state =
      ⟨state, .error (.terminal "Error starting steel-browser"), false⟩ :=
  rfl

theorem spawn_worker_no_port {binds : Nat → Bool} {uuid : String}
    {createSession : Nat → Option String}
    {parseResponse : String → Option Api.CreateSessionResponse} {state : Option Api.Pool}
    (h : Api.get_port binds = none) :
    Api.spawn_worker binds true uuid createSession parseResponse state =
      ⟨state, .error (.terminal "Error fetching worker port"), true⟩ := by
  simp only [Api.spawn_worker, h]
  exact if_pos trivial

theorem spawn_worker_create_fail {binds : Nat → Bool} {uuid : String}
    {createSession : Nat → Option String}
    {parseResponse : String → Option Api.CreateSessionResponse} {state : Option Api.Pool}
    {p : Nat} (h : Api.get_port binds = some p) (hc : createSession p = none) :
    Api.spawn_worker binds true uuid createSession parseResponse state =
      ⟨state, .error (.terminal "Failed to create session"), true⟩ := by
  simp only [Api.spawn_worker, h, hc]
  exact if_pos trivial

theorem spawn_worker_parse_fail {binds : Nat → Bool} {uuid : String}
    {createSession : Nat → Option String}
    {parseResponse : String → Option Api.CreateSessionResponse} {state : Option Api.Pool}
    {p : Nat} {body : String} (h : Api.get_port binds = some p)
    (hc : createSession p = some body) (hp : parseResponse body = none) :
    Api.spawn_worker binds true uuid createSession parseResponse state =
      ⟨state, .error (.terminal "Invalid JSON response"), true⟩ := by
  simp only [Api.spawn_worker, h, hc, hp]
  exact if_pos trivial

theorem spawn_worker_success_eq {binds : Nat → Bool} {uuid : String}
    {createSession : Nat → Option String}
    {parseResponse : String → Option Api.CreateSessionResponse} {state : Option Api.Pool}
    {p : Nat} {body : String} {parsed : Api.CreateSessionResponse}
    (h : Api.get_port binds = some p) (hc : createSession p = some body)
    (hp : parseResponse body = some parsed) :
    Api.spawn_worker binds true uuid createSession parseResponse state =
      ⟨some { session_list :=
                { id := parsed.id, available := true, worker_id := uuid,
                  user := parsed.data.user } :: (state.getD default).session_list,
              worker_list :=
                { id := uuid, port := some p, available := true }
                  :: (state.getD default).worker_list },
        .ok (body ++ "\nworker_port:" ++ toString p), true⟩ := by
  simp only [Api.spawn_worker, h, hc, hp]
  exact if_pos trivial

theorem back_spawn_worker_no_port {binds : Nat → Bool} {spawnOk : Bool} {uuid : String}
    {session_id : String} {state : Option Back.WorkerPool}
    (h : Back.get_port binds = none) :
    Back.spawn_worker binds spawnOk uuid session_id state =
      ⟨state, .error "No available ports", false⟩ := by
  simp only [Back.spawn_worker, h]

/-- C2: every successful api.rs `spawn_worker` call adds exactly one new
Worker and one new Session to the starting Pool, each at the front of its
list, the new Session's `worker_id` equals the new Worker's `id`, and the
tails of both lists are exactly the pre-existing entries, untouched. -/
theorem c2_spawn_worker_success_adds_one_pair :
    ∀ (binds : Nat → Bool) (spawnOk : Bool) (uuid : String)
      (createSession : Nat → Option String)
      (parseResponse : String → Option Api.CreateSessionResponse)
      (state : Option Api.Pool) (r : String),
      (Api.spawn_worker binds spawnOk uuid createSession parseResponse state).result = .ok r →
      ∃ p body parsed,
        Api.get_port binds = some p ∧
        createSession p = some body ∧
        parseResponse body = some parsed ∧
        (Api.spawn_worker binds spawnOk uuid createSession parseResponse state).newState =
          some { session_list :=
                   { id := parsed.id, available := true, worker_id := uuid,
                     user := parsed.data.user } :: (state.getD default).session_list,
                 worker_list :=
                   { id := uuid, port := some p, available := true }
                     :: (state.getD default).worker_list } ∧
        ({ id := parsed.id, available := true, worker_id := uuid,
           user := parsed.data.user } : Api.Session).worker_id =
          ({ id := uuid, port := some p, available := true } : Api.Worker).id := by
  intro binds spawnOk uuid cs pr state r hr
  cases spawnOk with
  | false =>
    rw [spawn_worker_spawn_fail] at hr
    exact absurd hr (by simp)
  | true =>
    cases hp : Api.get_port binds with
    | none =>
      rw [spawn_worker_no_port hp] at hr
      exact absurd hr (by simp)
    | some p =>
      cases hc : cs p with
      | none =>
        rw [spawn_worker_create_fail hp hc] at hr
        exact absurd hr (by simp)
      | some body =>
        cases hpr : pr body with
        | none =>
          rw [spawn_worker_parse_fail hp hc hpr] at hr
          exact absurd hr (by simp)
        | some parsed =>
          refine ⟨p, body, parsed, rfl, hc, hpr, ?_, rfl⟩
          rw [spawn_worker_success_eq hp hc hpr]

/-- Witness for C2 at concrete inputs: spawning against the empty pool with
a probe accepting port 3000 and a worker answering `"raw"` parsed as session
`s1` for user `alice` writes exactly the one-worker, one-session pool. -/
theorem c2_spawn_worker_success_adds_one_pair_witness :
    (Api.spawn_worker (fun q => q == 3000) true "w1" (fun _ => some "raw")
        (fun _ => some ⟨"s1", 0, ⟨"alice"⟩⟩) none).newState =
      some ⟨[⟨"s1", true, "w1", "alice"⟩], [⟨"w1", some 3000, true⟩]⟩ := by
  obtain ⟨p, body, parsed, hp, hb, hpr, hns, _⟩ :=
    c2_spawn_worker_success_adds_one_pair (fun q => q == 3000) true "w1"
      (fun _ => some "raw") (fun _ => some ⟨"s1", 0, ⟨"alice"⟩⟩) none
      "raw\nworker_port:3000" (by rfl)
  obtain rfl : p = 3000 := by
    have : some p = some 3000 := hp.symm.trans (by rfl)
    exact Option.some.inj this
  obtain rfl : "raw" = body := Option.some.inj hb
  obtain rfl : (⟨"s1", 0, ⟨"alice"⟩⟩ : Api.CreateSessionResponse) = parsed := Option.some.inj hpr
  exact hns

/-- C3: whenever api.rs `spawn_worker` fails (spawn failure, missing port,
session-create failure, or malformed session-create response), the persisted
pool state is exactly what it was before the call — nothing is written. -/
theorem c3_spawn_worker_failure_leaves_state_unchanged :
    ∀ (binds : Nat → Bool) (spawnOk : Bool) (uuid : String)
      (createSession : Nat → Option String)
      (parseResponse : String → Option Api.CreateSessionResponse)
      (state : Option Api.Pool) (e : Api.HErr),
      (Api.spawn_worker binds spawnOk uuid createSession parseResponse state).result = .error e →
      (Api.spawn_worker binds spawnOk uuid createSession parseResponse state).newState = state := by
  intro binds spawnOk uuid cs pr state e hr
  cases spawnOk with
  | false => rw [spawn_worker_spawn_fail]
  | true =>
    cases hp : Api.get_port binds with
    | none => rw [spawn_worker_no_port hp]
    | some p =>
      cases hc : cs p with
      | none => rw [spawn_worker_create_fail hp hc]
      | some body =>
        cases hpr : pr body with
        | none => rw [spawn_worker_parse_fail hp hc hpr]
        | some parsed =>
          rw [spawn_worker_success_eq hp hc hpr] at hr
          exact absurd hr (by simp)

/-- Witness for C3 at a concrete input: a failing process spawn leaves the
absent pool record absent. -/
theorem c3_spawn_worker_failure_leaves_state_unchanged_witness :
    (Api.spawn_worker (fun _ => false) false "w1" (fun _ => none)
      (fun _ => none) none).newState = none :=
  c3_spawn_worker_failure_leaves_state_unchanged (fun _ => false) false "w1"
    (fun _ => none) (fun _ => none) none (.terminal "Error starting steel-browser") rfl

/-- C4 failing input: `get_port` finds no port (every bind probe fails) and
the process spawn succeeds. back.rs then aborts with "No available ports"
before starting the worker process, but api.rs starts the `steel-browser`
process anyway (with `PORT = ready_port.unwrap_or_default()`, i.e. 0) and
raises the terminal port error only afterwards — contradicting the claim
that the worker process is never started when allocation returned no port. -/
theorem c4_api_spawns_process_despite_no_port :
    Api.get_port (fun _ => false) = none ∧
    (Api.spawn_worker (fun _ => false) true "w0" (fun _ => none)
      (fun _ => none) none).processSpawned = true ∧
    (Api.spawn_worker (fun _ => false) true "w0" (fun _ => none)
      (fun _ => none) none).result = .error (.terminal "Error fetching worker port") ∧
    (Back.spawn_worker (fun _ => false) true "w0" "s0" none).processSpawned = false ∧
    (Back.spawn_worker (fun _ => false) true "w0" "s0" none).result =
      .error "No available ports" := by
  have hnone : Api.get_port (fun _ => false) = none := by
    rw [Api.get_port, portScan_eq_none]
    intro r h1 h2
    rfl
  have hbnone : Back.get_port (fun _ => false) = none := by
    rw [Back.get_port, portScan_eq_none]
    intro r h1 h2
    rfl
  refine ⟨hnone, ?_, ?_, ?_, ?_⟩
  · rw [spawn_worker_no_port hnone]
  · rw [spawn_worker_no_port hnone]
  · rw [back_spawn_worker_no_port hbnone]
  · rw [back_spawn_worker_no_port hbnone]

theorem get_session_session_missing {fetchReq : Nat → String → Option String}
    {state : Option Api.Pool} {session_id : String}
    (hs : (state.getD default).session_list.find? (fun s => s.id == session_id) = none) :
    Api.get_session fetchReq state session_id =
      (state, .error (.terminal "Error fetching session from session_list")) := by
  simp only [Api.get_session, hs]

theorem get_session_worker_missing {fetchReq : Nat → String → Option String}
    {state : Option Api.Pool} {session_id : String} {sess : Api.Session}
    (hs : (state.getD default).session_list.find? (fun s => s.id == session_id) = some sess)
    (hw : (state.getD default).worker_list.find? (fun w => w.id == sess.worker_id) = none) :
    Api.get_session fetchReq state session_id =
      (state, .error (.terminal "Error fetching session_worker from worker_list")) := by
  simp only [Api.get_session, hs, hw]

theorem get_session_port_missing {fetchReq : Nat → String → Option String}
    {state : Option Api.Pool} {session_id : String} {sess : Api.Session} {w : Api.Worker}
    (hs : (state.getD default).session_list.find? (fun s => s.id == session_id) = some sess)
    (hw : (state.getD default).worker_list.find? (fun x => x.id == sess.worker_id) = some w)
    (hport : w.port = none) :
    Api.get_session fetchReq state session_id =
      (state, .error (.terminal "Error fetching worker port")) := by
  simp only [Api.get_session, hs, hw, hport]

theorem get_session_resolved {fetchReq : Nat → String → Option String}
    {state : Option Api.Pool} {session_id : String} {sess : Api.Session} {w : Api.Worker}
    {p : Nat} {body : String}
    (hs : (state.getD default).session_list.find? (fun s => s.id == session_id) = some sess)
    (hw : (state.getD default).worker_list.find? (fun x => x.id == sess.worker_id) = some w)
    (hport : w.port = some p) (hb : fetchReq p sess.id = some body) :
    Api.get_session fetchReq state session_id = (state, .ok body) := by
  simp only [Api.get_session, hs, hw, hport, hb]

/-- C8: with the worker's fetch-session endpoint reachable, api.rs
`get_session` fails (with a terminal error) exactly when the session id is
absent from `session_list`, or the session's `worker_id` is absent from
`worker_list`, or the resolved worker has no assigned port; when the whole
lookup chain resolves, it calls the endpoint at the resolved port with
the session's id and returns the raw response body. -/
theorem c8_get_session_error_conditions :
    ∀ (fetchReq : Nat → String → Option String) (state : Option Api.Pool)
      (session_id : String),
      (∀ p s, (fetchReq p s).isSome = true) →
      ((∃ e, (Api.get_session fetchReq state session_id).2 = .error e) ↔
        ((state.getD default).session_list.find? (fun s => s.id == session_id) = none ∨
         (∃ sess,
           (state.getD default).session_list.find? (fun s => s.id == session_id) = some sess ∧
           (state.getD default).worker_list.find? (fun w => w.id == sess.worker_id) = none) ∨
         (∃ sess w,
           (state.getD default).session_list.find? (fun s => s.id == session_id) = some sess ∧
           (state.getD default).worker_list.find? (fun x => x.id == sess.worker_id) = some w ∧
           w.port = none)))
      ∧ (∀ sess w p,
          (state.getD default).session_list.find? (fun s => s.id == session_id) = some sess →
          (state.getD default).worker_list.find? (fun x => x.id == sess.worker_id) = some w →
          w.port = some p →
          ∃ body, fetchReq p sess.id = some body ∧
            (Api.get_session fetchReq state session_id).2 = .ok body) := by
  intro f state sid hf
  cases hs : (state.getD default).session_list.find? (fun s => s.id == sid) with
  | none =>
    refine ⟨⟨fun _ => Or.inl rfl, fun _ => ?_⟩, fun sess w p h1 _ _ => by cases h1⟩
    rw [get_session_session_missing hs]
    exact ⟨.terminal "Error fetching session from session_list", rfl⟩
  | some sess =>
    cases hw : (state.getD default).worker_list.find? (fun x => x.id == sess.worker_id) with
    | none =>
      refine ⟨⟨fun _ => Or.inr (Or.inl ⟨sess, rfl, hw⟩), fun _ => ?_⟩,
        fun sess' w p h1 h2 _ => ?_⟩
      · rw [get_session_worker_missing hs hw]
        exact ⟨.terminal "Error fetching session_worker from worker_list", rfl⟩
      · obtain rfl : sess = sess' := Option.some.inj h1
        rw [hw] at h2
        cases h2
    | some w =>
      cases hport : w.port with
      | none =>
        refine ⟨⟨fun _ => Or.inr (Or.inr ⟨sess, w, rfl, hw, hport⟩), fun _ => ?_⟩,
          fun sess' w' p h1 h2 h3 => ?_⟩
        · rw [get_session_port_missing hs hw hport]
          exact ⟨.terminal "Error fetching worker port", rfl⟩
        · obtain rfl : sess = sess' := Option.some.inj h1
          obtain rfl : w = w' := Option.some.inj (hw.symm.trans h2)
          rw [hport] at h3
          cases h3
      | some p =>
        obtain ⟨body, hb⟩ := Option.isSome_iff_exists.mp (hf p sess.id)
        constructor
        · constructor
          · intro hex
            obtain ⟨e, he⟩ := hex
            rw [get_session_resolved hs hw hport hb] at he
            cases he
          · intro hor
            rcases hor with h1 | ⟨sess', h1, h2⟩ | ⟨sess', w', h1, h2, h3⟩
            · cases h1
            · obtain rfl : sess = sess' := Option.some.inj h1
              rw [hw] at h2; cases h2
            · obtain rfl : sess = sess' := Option.some.inj h1
              obtain rfl : w = w' := Option.some.inj (hw.symm.trans h2)
              rw [hport] at h3; cases h3
        · intro sess' w' p' h1 h2 h3
          obtain rfl : sess = sess' := Option.some.inj h1
          obtain rfl : w = w' := Option.some.inj (hw.symm.trans h2)
          obtain rfl : p = p' := Option.some.inj (hport.symm.trans h3)
          refine ⟨body, hb, ?_⟩
          rw [get_session_resolved hs hw hport hb]

/-- Witness for C8 at a concrete input: a one-session pool whose worker has
port 3000, with a worker answering "body", yields that raw body. -/
theorem c8_get_session_error_conditions_witness :
    (Api.get_session (fun _ _ => some "body")
      (some ⟨[⟨"s1", true, "w1", "alice"⟩], [⟨"w1", some 3000, true⟩]⟩) "s1").2 =
      .ok "body" := by
  obtain ⟨body, hb, hr⟩ := (c8_get_session_error_conditions (fun _ _ => some "body")
      (some ⟨[⟨"s1", true, "w1", "alice"⟩], [⟨"w1", some 3000, true⟩]⟩) "s1"
      (fun _ _ => rfl)).2
    ⟨"s1", true, "w1", "alice"⟩ ⟨"w1", some 3000, true⟩ 3000 rfl rfl rfl
  obtain rfl : "body" = body := Option.some.inj hb
  exact hr

theorem health_check_fst (healthReq : Nat → Option String) (state : Option Api.Pool)
    (session_id : String) : (Api.health_check healthReq state session_id).1 = state := by
  simp only [Api.health_check]
  split
  · rfl
  · split
    · rfl
    · split
      · rfl
      · split
        · rfl
        · rfl

theorem status_check_fst (statusReq : Nat → Option String) (state : Option Api.Pool)
    (session_id : String) : (Api.status_check statusReq state session_id).1 = state := by
  simp only [Api.status_check]
  split
  · rfl
  · split
    · rfl
    · split
      · rfl
      · split
        · rfl
        · rfl

theorem get_session_fst (fetchReq : Nat → String → Option String) (state : Option Api.Pool)
    (session_id : String) : (Api.get_session fetchReq state session_id).1 = state := by
  simp only [Api.get_session]
  split
  · rfl
  · split
    · rfl
    · split
      · rfl
      · split
        · rfl
        · rfl

theorem delete_session_fst (deleteReq : Nat → String → Option String) (state : Option Api.Pool)
    (session_id : String) : (Api.delete_session deleteReq state session_id).1 = state := by
  simp only [Api.delete_session]
  split
  · rfl
  · split
    · rfl
    · split
      · rfl
      · split
        · rfl
        · rfl

theorem api_workers_filter_nil (x : String) (l : List Api.Worker)
    (h : ∀ w ∈ l, w.id ≠ x) : l.filter (fun w => w.id == x) = [] :=
  filter_key_nil (fun w : Api.Worker => w.id) x l h

theorem back_workers_filter_filter (x y : String) (hxy : x ≠ y) :
    ∀ l : List Back.Worker,
      (l.filter (fun w => w.id != y)).filter (fun w => w.id == x) =
        l.filter (fun w => w.id == x) :=
  filter_filter_ne (fun w : Back.Worker => w.id) x y hxy

theorem back_delete_session_found {state : Option Back.WorkerPool} {session_id : String}
    {sess : Back.Session}
    (h : (state.getD default).sessions.find? (fun s => s.id == session_id) = some sess) :
    Back.delete_session state session_id =
      (some { sessions := (state.getD default).sessions.filter (fun s => decide (s ≠ sess)),
              workers := (state.getD default).workers.filter
                (fun w => w.id != sess.worker_id) },
        .ok ()) := by
  simp only [Back.delete_session, h]

theorem pool_inv_cons (sl : List Api.Session) (wl : List Api.Worker) (uuid : String)
    (p : Nat) (sid usr : String)
    (hfresh : ∀ w ∈ wl, w.id ≠ uuid)
    (hinv : Api.Pool.inv ⟨sl, wl⟩ = true) :
    Api.Pool.inv ⟨{ id := sid, available := true, worker_id := uuid, user := usr } :: sl,
                  { id := uuid, port := some p, available := true } :: wl⟩ = true := by
  have hwl : wl.filter (fun w => w.id == uuid) = [] := api_workers_filter_nil uuid wl hfresh
  simp only [Api.Pool.inv] at hinv ⊢
  rw [List.all_eq_true] at hinv ⊢
  intro s hs
  rcases List.mem_cons.mp hs with rfl | hmem
  · simp [List.filter_cons, hwl]
  · have h1 := hinv s hmem
    have hneq : s.worker_id ≠ uuid := by
      intro heq
      rw [heq, hwl] at h1
      simp at h1
    have hcond :
        (({ id := uuid, port := some p, available := true } : Api.Worker).id == s.worker_id)
          = false :=
      beq_eq_false_iff_ne.mpr (fun h => hneq h.symm)
    rw [List.filter_cons, hcond]
    simp only [Bool.false_eq_true, if_false]
    exact h1

/-- Counterexample to C1 as stated: in the back.rs pool where sessions `s1`
and `s2` both reference worker `w1`, the invariant holds before
`delete_session "s1"`, but afterwards the surviving session `s2` has a
`worker_id` that resolves to no Worker — the operation broke the invariant. -/
theorem c1_counterexample :
    Back.WorkerPool.inv
        ⟨[⟨"s1", true, "w1"⟩, ⟨"s2", true, "w1"⟩], [⟨"w1", some 4000, true⟩]⟩ = true ∧
    (Back.delete_session
        (some ⟨[⟨"s1", true, "w1"⟩, ⟨"s2", true, "w1"⟩], [⟨"w1", some 4000, true⟩]⟩)
        "s1").1 = some ⟨[⟨"s2", true, "w1"⟩], []⟩ ∧
    Back.WorkerPool.inv ⟨[⟨"s2", true, "w1"⟩], []⟩ = false :=
  ⟨rfl, rfl, rfl⟩

/-- C1 amended: the invariant "every Session's `worker_id` resolves to
exactly one Worker in the same Pool" is preserved by every api.rs operation
— `spawn_worker` preserves it whenever the generated worker id is fresh for
the pool, and `health_check`, `status_check`, `get_session`, `delete_session`
leave the persisted pool untouched — and by the back.rs `delete_session`
only under the extra assumption that no other Session references the deleted
Session's Worker (without it, the counterexample shows the invariant breaks). -/
theorem c1_amended_invariant_preserved :
    (∀ (binds : Nat → Bool) (spawnOk : Bool) (uuid : String)
       (createSession : Nat → Option String)
       (parseResponse : String → Option Api.CreateSessionResponse)
       (state : Option Api.Pool) (p' : Api.Pool),
      (Api.spawn_worker binds spawnOk uuid createSession parseResponse state).newState
        = some p' →
      Api.Pool.inv (state.getD default) = true →
      (∀ w ∈ (state.getD default).worker_list, w.id ≠ uuid) →
      Api.Pool.inv p' = true)
    ∧ (∀ healthReq state session_id, (Api.health_check healthReq state session_id).1 = state)
    ∧ (∀ statusReq state session_id, (Api.status_check statusReq state session_id).1 = state)
    ∧ (∀ fetchReq state session_id, (Api.get_session fetchReq state session_id).1 = state)
    ∧ (∀ deleteReq state session_id, (Api.delete_session deleteReq state session_id).1 = state)
    ∧ (∀ (state : Option Back.WorkerPool) (session_id : String) (sess : Back.Session)
         (p' : Back.WorkerPool),
        (state.getD default).sessions.find? (fun s => s.id == session_id) = some sess →
        (∀ s ∈ (state.getD default).sessions, s ≠ sess → s.worker_id ≠ sess.worker_id) →
        Back.WorkerPool.inv (state.getD default) = true →
        (Back.delete_session state session_id).1 = some p' →
        Back.WorkerPool.inv p' = true) := by
  refine ⟨?_, health_check_fst, status_check_fst, get_session_fst, delete_session_fst, ?_⟩
  · intro binds spawnOk uuid cs pr state p' hns hinv hfresh
    cases spawnOk with
    | false =>
      rw [spawn_worker_spawn_fail] at hns
      have hns' : state = some p' := hns
      subst hns'
      exact hinv
    | true =>
      cases hp : Api.get_port binds with
      | none =>
        rw [spawn_worker_no_port hp] at hns
        have hns' : state = some p' := hns
        subst hns'
        exact hinv
      | some p =>
        cases hc : cs p with
        | none =>
          rw [spawn_worker_create_fail hp hc] at hns
          have hns' : state = some p' := hns
          subst hns'
          exact hinv
        | some body =>
          cases hpr : pr body with
          | none =>
            rw [spawn_worker_parse_fail hp hc hpr] at hns
            have hns' : state = some p' := hns
            subst hns'
            exact hinv
          | some parsed =>
            rw [spawn_worker_success_eq hp hc hpr] at hns
            obtain rfl := Option.some.inj hns
            exact pool_inv_cons _ _ uuid p parsed.id parsed.data.user hfresh hinv
  · intro state sid sess p' hfind hnoref hinv hdel
    rw [back_delete_session_found hfind] at hdel
    obtain rfl := Option.some.inj hdel
    simp only [Back.WorkerPool.inv] at hinv ⊢
    rw [List.all_eq_true] at hinv ⊢
    intro s hs
    rw [List.mem_filter] at hs
    obtain ⟨hmem, hne'⟩ := hs
    have hne : s ≠ sess := of_decide_eq_true hne'
    have hwid : s.worker_id ≠ sess.worker_id := hnoref s hmem hne
    rw [back_workers_filter_filter s.worker_id sess.worker_id hwid]
    exact hinv s hmem

/-- Witness for C1 amended at concrete inputs: spawning into the empty
api.rs pool yields the invariant-satisfying one-pair pool, and deleting the
sole session of a one-session back.rs pool yields the empty pool, which
satisfies the invariant. -/
theorem c1_amended_invariant_preserved_witness :
    Api.Pool.inv ⟨[⟨"s1", true, "w1", "alice"⟩], [⟨"w1", some 3000, true⟩]⟩ = true ∧
    Back.WorkerPool.inv ⟨[], []⟩ = true := by
  constructor
  · exact c1_amended_invariant_preserved.1 (fun q => q == 3000) true "w1"
      (fun _ => some "raw") (fun _ => some ⟨"s1", 0, ⟨"alice"⟩⟩) none
      ⟨[⟨"s1", true, "w1", "alice"⟩], [⟨"w1", some 3000, true⟩]⟩
      (by rfl) (by rfl) (by decide)
  · exact c1_amended_invariant_preserved.2.2.2.2.2
      (some ⟨[⟨"s1", true, "w1"⟩], [⟨"w1", some 4000, true⟩]⟩) "s1"
      ⟨"s1", true, "w1"⟩ ⟨[], []⟩ rfl (by decide) rfl rfl
